import Mathlib

/-!
Verification of the local authentication and session-management subsystem of
the medical-practice admin console, shallowly embedded from
`backend/auth_manager.py` and the password-hashing utility of
`backend/azure_services.py`.

Conventions of the embedding:
* `datetime` values are integers (seconds, UTC); `datetime.now()` is passed to
  every operation as an explicit `now` argument, and `timedelta(minutes = m)`
  is `m * 60` seconds.
* The PBKDF2-HMAC-SHA256 primitive (`hashlib.pbkdf2_hmac`, part of the Python
  standard library, external to this repository) is an explicit parameter
  `kdf : String → List Nat → Nat → Nat → List Nat` taking the password, the
  salt bytes, the iteration count and the derived-key length, and returning
  the derived-key bytes.  Randomness (`os.urandom`, `secrets.choice`) is also
  passed in explicitly.
* Python exceptions are `Except` values; where the source mutates `self` the
  operation returns the updated record, and the error case carries the record
  as it stood when the exception was raised.
* `secrets.compare_digest` on byte strings is equality of the byte lists.
* Python `str.lower` / `str.isupper` / `str.islower` / `str.isdigit` are
  modelled by the corresponding ASCII-faithful `Char` operations; all string
  values exercised by the claims are ASCII.
-/

namespace MedAuth

/-! ### Security constants (auth_manager.py lines 21-23, azure_services.py lines 31-33) -/

def SESSION_TIMEOUT_MINUTES : Int := 30
def MAX_LOGIN_ATTEMPTS : Nat := 5
def LOGIN_ATTEMPT_WINDOW_MINUTES : Int := 15
def PBKDF2_ITERATIONS : Nat := 100000
def PBKDF2_SALT_LEN : Nat := 32
def PBKDF2_KEY_LEN : Nat := 32

/-! ### Base64 (model of Python `base64.b64encode` / `base64.b64decode`)

`b64decode` with the default `validate := False` first discards characters
outside the alphabet (padding `=` is kept), then decodes groups of four
symbols; a leftover group that is not a full quad raises `binascii.Error`.
Misplaced padding (a quad with `=` anywhere but the final position patterns)
is treated as an error here; no theorem below exercises such inputs. -/

def b64Alphabet : List Char :=
  "ABCDEFGHIJKLMNOPQRSTUVWXYZabcdefghijklmnopqrstuvwxyz0123456789+/".data

def b64Char (n : Nat) : Char := b64Alphabet.getD n 'A'

def b64CharIndex (c : Char) : Option Nat := b64Alphabet.findIdx? (fun a => a == c)

def b64Keep (c : Char) : Bool := (b64CharIndex c).isSome || c == '='

def b64encodeChars : List Nat → List Char
  | [] => []
  | [a] => [b64Char (a / 4), b64Char (a % 4 * 16), '=', '=']
  | [a, b] => [b64Char (a / 4), b64Char (a % 4 * 16 + b / 16), b64Char (b % 16 * 4), '=']
  | a :: b :: c :: rest =>
      b64Char (a / 4) :: b64Char (a % 4 * 16 + b / 16) :: b64Char (b % 16 * 4 + c / 64) ::
        b64Char (c % 64) :: b64encodeChars rest

def b64decodeQuads : List Char → Option (List Nat)
  | [] => some []
  | c1 :: c2 :: c3 :: c4 :: rest =>
      match b64CharIndex c1, b64CharIndex c2 with
      | some x, some y =>
          if c3 = '=' then
            if c4 = '=' ∧ rest = [] then some [x * 4 + y / 16] else none
          else
            match b64CharIndex c3 with
            | some z =>
                if c4 = '=' then
                  if rest = [] then some [x * 4 + y / 16, y % 16 * 16 + z / 4] else none
                else
                  match b64CharIndex c4 with
                  | some w =>
                      (b64decodeQuads rest).map
                        (fun bs => (x * 4 + y / 16) :: (y % 16 * 16 + z / 4) ::
                          (z % 4 * 64 + w) :: bs)
                  | none => none
            | none => none
      | _, _ => none
  | _ => none

def b64decode (cs : List Char) : Option (List Nat) :=
  b64decodeQuads (cs.filter b64Keep)

/-! ### Small Python-string helpers -/

/-- Python `str.split(sep, maxsplit)` for a single-character separator:
split at the first `n` occurrences, keep the remainder whole. -/
def splitLimitAux (sep : Char) : List Char → Nat → List Char → List (List Char)
  | [], _, acc => [acc.reverse]
  | c :: rest, 0, acc => splitLimitAux sep rest 0 (c :: acc)
  | c :: rest, n + 1, acc =>
      if c = sep then acc.reverse :: splitLimitAux sep rest n []
      else splitLimitAux sep rest (n + 1) (c :: acc)

def splitLimit (sep : Char) (n : Nat) (cs : List Char) : List (List Char) :=
  splitLimitAux sep cs n []

/-- Python `int(s)` on the non-negative decimal literals this code emits:
at least one character, all digits; anything else raises `ValueError`. -/
def pyInt (s : String) : Option Nat :=
  if !s.data.isEmpty && s.data.all Char.isDigit then
    some (s.data.foldl (fun acc c => acc * 10 + (c.toNat - 48)) 0)
  else none

/-- Python `str.lower()` (ASCII-faithful). -/
def pyLower (s : String) : String := String.mk (s.data.map Char.toLower)

/-- Python `len` on a string (number of code points). -/
def pyLen (s : String) : Nat := s.data.length

/-- Python `str.startswith(pat)`. -/
def strStartsWith (s pat : List Char) : Bool :=
  match pat, s with
  | [], _ => true
  | _ :: _, [] => false
  | p :: ps, c :: cs => c == p && strStartsWith cs ps

/-- The bytes produced by `os.urandom` and `hashlib.pbkdf2_hmac`. -/
def ByteList (l : List Nat) : Prop := ∀ b ∈ l, b < 256

instance (l : List Nat) : Decidable (ByteList l) :=
  inferInstanceAs (Decidable (∀ b ∈ l, b < 256))

/-! ### Password hashing (azure_services.py lines 35-57) -/

/-- `hash_password_pbkdf2` (azure_services.py lines 35-45): serialize
`"pbkdf2_sha256$" + iterations + "$" + b64(salt) + "$" + b64(key)`.
The salt (`os.urandom(PBKDF2_SALT_LEN)`) is an explicit argument. -/
def hash_password_pbkdf2 (kdf : String → List Nat → Nat → Nat → List Nat)
    (password : String) (salt : List Nat) : String :=
  String.mk ("pbkdf2_sha256$".data ++ (toString PBKDF2_ITERATIONS).data ++ '$' ::
    b64encodeChars salt ++ '$' ::
      b64encodeChars (kdf password salt PBKDF2_ITERATIONS PBKDF2_KEY_LEN))

/-- `verify_password_pbkdf2` (azure_services.py lines 47-57).  The source
runs `stored.split("$", 3)` and unpacks exactly four fields, decodes the two
base64 fields, converts the iteration field with `int`, recomputes the key
and compares; each of these steps raises (`ValueError` / `binascii.Error`)
on malformed input, modelled by the `.error` results.  An unrecognized
algorithm tag returns `False`. -/
def verify_password_pbkdf2 (kdf : String → List Nat → Nat → Nat → List Nat)
    (password stored : String) : Except String Bool :=
  if strStartsWith stored.data "pbkdf2_sha256$".data then
    match splitLimit '$' 3 stored.data with
    | [_, iterCs, saltCs, keyCs] =>
        match b64decode saltCs with
        | none => .error "binascii.Error: invalid base64 salt"
        | some salt =>
            match b64decode keyCs with
            | none => .error "binascii.Error: invalid base64 key"
            | some key =>
                match pyInt (String.mk iterCs) with
                | none => .error "ValueError: invalid literal for int"
                | some iters => .ok (decide (key = kdf password salt iters PBKDF2_KEY_LEN))
    | _ => .error "ValueError: not enough values to unpack"
  else .ok false

/-! ### The credential record (auth_manager.py `_create_initial_credentials`) -/

structure Credentials where
  username : String
  email : String
  password_hash : String
  created_at : Int
  last_login : Option Int
  last_password_change : Int
  require_password_change : Bool
  failed_attempts : Nat
  locked_until : Option Int
deriving DecidableEq

/-- In-memory state of an `AdminCredentials` object: the persisted record
plus the transient session timestamps. -/
structure AdminState where
  credentials : Credentials
  session_start : Option Int
  last_activity : Option Int
deriving DecidableEq

/-! ### Operations of AdminCredentials -/

/-- `_reset_failed_attempts` (lines 167-171). -/
def resetFailedAttempts (c : Credentials) : Credentials :=
  { c with failed_attempts := 0, locked_until := none }

/-- `_record_failed_attempt` (lines 156-165): increment the counter; on
reaching `MAX_LOGIN_ATTEMPTS` set `locked_until := now + 15 minutes`. -/
def recordFailedAttempt (now : Int) (c : Credentials) : Credentials :=
  let c1 := { c with failed_attempts := c.failed_attempts + 1 }
  if MAX_LOGIN_ATTEMPTS ≤ c1.failed_attempts then
    { c1 with locked_until := some (now + LOGIN_ATTEMPT_WINDOW_MINUTES * 60) }
  else c1

/-- `_is_account_locked` (lines 137-154): a set `locked_until` that is still
in the future means locked; one that has elapsed is cleared together with
the failure counter (the source assigns `locked_until = None` and
`failed_attempts = 0`, which is exactly `resetFailedAttempts`). -/
def isAccountLocked (now : Int) (c : Credentials) : Bool × Credentials :=
  match c.locked_until with
  | some t => if now < t then (true, c) else (false, resetFailedAttempts c)
  | none => (false, c)

/-- The membership test of authenticate (lines 119-120):
`username.lower() not in [stored_username.lower(), stored_email.lower()]`. -/
def identifierMatches (username : String) (c : Credentials) : Bool :=
  decide (pyLower username = pyLower c.username) ||
    decide (pyLower username = pyLower c.email)

/-- `authenticate` (lines 112-135).  Order of the source: lockout check
(with auto-unlock side effect), identifier check, password check, then the
success path resets the counter, arms the session timestamps and records
`last_login`.  A raised exception (only possible from
`verify_password_pbkdf2` on a malformed stored hash) carries the state as
already mutated by the auto-unlock. -/
def authenticate (kdf : String → List Nat → Nat → Nat → List Nat) (now : Int)
    (username password : String) (st : AdminState) :
    Except (String × AdminState) ((Bool × String) × AdminState) :=
  match isAccountLocked now st.credentials with
  | (true, c) =>
      .ok ((false, "Account is temporarily locked due to too many failed attempts"),
        { st with credentials := c })
  | (false, c) =>
      if identifierMatches username c then
        match verify_password_pbkdf2 kdf password c.password_hash with
        | .error e => .error (e, { st with credentials := c })
        | .ok true =>
            .ok ((true, "Success"),
              ⟨{ resetFailedAttempts c with last_login := some now }, some now, some now⟩)
        | .ok false =>
            .ok ((false, "Invalid credentials"),
              { st with credentials := recordFailedAttempt now c })
      else
        .ok ((false, "Invalid credentials"),
          { st with credentials := recordFailedAttempt now c })

/-- `is_session_valid` (lines 173-190). -/
def is_session_valid (now : Int) (st : AdminState) : Bool :=
  match st.session_start, st.last_activity with
  | some ss, some la =>
      if SESSION_TIMEOUT_MINUTES * 60 < now - ss then false
      else if SESSION_TIMEOUT_MINUTES * 60 / 2 < now - la then false
      else true
  | _, _ => false

/-- `update_activity` (lines 192-194). -/
def update_activity (now : Int) (st : AdminState) : AdminState :=
  { st with last_activity := some now }

/-- The fixed special-character set of `change_password` (line 214). -/
def specialChars : List Char := "!@#$%^&*()_+-=".data

/-- `change_password` (lines 196-222): wrong old password returns `False`;
each strength violation raises `ValueError` with its specific message (the
record, carried in the error, is untouched); on success the hash,
`last_password_change` and `require_password_change` are updated.  The salt
for the new hash (`os.urandom` inside `hash_password_pbkdf2`) is explicit. -/
def change_password (kdf : String → List Nat → Nat → Nat → List Nat) (now : Int)
    (salt : List Nat) (old_password new_password : String) (c : Credentials) :
    Except (String × Credentials) (Bool × Credentials) :=
  match verify_password_pbkdf2 kdf old_password c.password_hash with
  | .error e => .error (e, c)
  | .ok false => .ok (false, c)
  | .ok true =>
      if pyLen new_password < 12 then
        .error ("Password must be at least 12 characters long", c)
      else if !(new_password.data.any Char.isUpper) then
        .error ("Password must contain uppercase letters", c)
      else if !(new_password.data.any Char.isLower) then
        .error ("Password must contain lowercase letters", c)
      else if !(new_password.data.any Char.isDigit) then
        .error ("Password must contain numbers", c)
      else if !(new_password.data.any (fun ch => specialChars.contains ch)) then
        .error ("Password must contain special characters", c)
      else
        .ok (true, { c with password_hash := hash_password_pbkdf2 kdf new_password salt,
                            last_password_change := now,
                            require_password_change := false })

/-! ### Initial-credential creation (lines 72-110, 224-233) -/

/-- The symbol set of `_generate_secure_password` (lines 226, 232). -/
def genSymbols : List Char := "!@#$%^&*".data

/-- The acceptance test of the `_generate_secure_password` loop
(lines 229-232). -/
def passwordOk (p : String) : Bool :=
  p.data.any Char.isLower && p.data.any Char.isUpper && p.data.any Char.isDigit &&
    p.data.any (fun ch => genSymbols.contains ch)

/-- `_generate_secure_password` (lines 224-233).  One call to
`secrets.choice`-join per loop iteration is modelled by one element of
`rounds`: `r j` is the `j`-th drawn character of that round, and the round
candidate is `''.join(...)` over `range length`.  The loop resamples until a
candidate passes `passwordOk`; exhausting `rounds` (the random stream
supplied) yields `none`. -/
def generateSecurePassword (length : Nat) : List (Nat → Char) → Option String
  | [] => none
  | r :: rest =>
      let pw := String.mk ((List.range length).map r)
      if passwordOk pw then some pw else generateSecurePassword length rest

/-- `_create_initial_credentials` (lines 72-110): the persisted record for a
fresh install, hashed from the generated password `pw`. -/
def createInitialCredentials (kdf : String → List Nat → Nat → Nat → List Nat)
    (now : Int) (salt : List Nat) (pw : String) : Credentials :=
  { username := "admin"
    email := "admin@medicalpractice.local"
    password_hash := hash_password_pbkdf2 kdf pw salt
    created_at := now
    last_login := none
    last_password_change := now
    require_password_change := true
    failed_attempts := 0
    locked_until := none }

/-- Initialization (`__init__`, lines 28-37): load the stored record; when
the store is empty generate a fresh password (default length 16), create the
record and disclose the password to the operator.  The disclosed password is
the second component. -/
def initializeStore (kdf : String → List Nat → Nat → Nat → List Nat) (now : Int)
    (salt : List Nat) (rounds : List (Nat → Char)) (loaded : Option Credentials) :
    Option (Credentials × Option String) :=
  match loaded with
  | some c => some (c, none)
  | none =>
      (generateSecurePassword 16 rounds).map
        (fun pw => (createInitialCredentials kdf now salt pw, some pw))

/-! ### Derived notions used by the claims -/

/-- The credentials after a sequence of failed attempts at the given times. -/
def failChain (ts : List Int) (c : Credentials) : Credentials :=
  ts.foldl (fun a t => recordFailedAttempt t a) c

/-- The lockout bookkeeping invariant: without a lock the counter is below
the threshold, and a set lock certifies the counter is exactly at it. -/
def LockInv (c : Credentials) : Prop :=
  (c.locked_until = none → c.failed_attempts < MAX_LOGIN_ATTEMPTS) ∧
  (∀ t, c.locked_until = some t → c.failed_attempts = MAX_LOGIN_ATTEMPTS)

/-- Credential records reachable from a fresh install through any sequence
of `authenticate` and `change_password` calls (including calls that raise). -/
inductive Reachable (kdf : String → List Nat → Nat → Nat → List Nat) : Credentials → Prop where
  | init (now : Int) (salt : List Nat) (pw : String) :
      Reachable kdf (createInitialCredentials kdf now salt pw)
  | authOk {c : Credentials} (now : Int) (idf pw : String) (ss la : Option Int)
      {res : Bool × String} {st2 : AdminState}
      (hc : Reachable kdf c)
      (h : authenticate kdf now idf pw ⟨c, ss, la⟩ = .ok (res, st2)) :
      Reachable kdf st2.credentials
  | authRaise {c : Credentials} (now : Int) (idf pw : String) (ss la : Option Int)
      {e : String} {st2 : AdminState}
      (hc : Reachable kdf c)
      (h : authenticate kdf now idf pw ⟨c, ss, la⟩ = .error (e, st2)) :
      Reachable kdf st2.credentials
  | changeOk {c : Credentials} (now : Int) (salt : List Nat) (oldPw newPw : String)
      {b : Bool} {c2 : Credentials}
      (hc : Reachable kdf c)
      (h : change_password kdf now salt oldPw newPw c = .ok (b, c2)) :
      Reachable kdf c2
  | changeRaise {c : Credentials} (now : Int) (salt : List Nat) (oldPw newPw : String)
      {e : String} {c2 : Credentials}
      (hc : Reachable kdf c)
      (h : change_password kdf now salt oldPw newPw c = .error (e, c2)) :
      Reachable kdf c2

/-! ### Concrete instances used by witnesses and counterexamples -/

/-- A key-derivation function that collapses every password to the zero key:
a colliding instance of the abstract KDF parameter. -/
def kdfConst : String → List Nat → Nat → Nat → List Nat :=
  fun _ _ _ _ => List.replicate 32 0

/-- A key-derivation function that separates passwords of different lengths:
enough to distinguish the concrete test passwords below. -/
def kdfLen : String → List Nat → Nat → Nat → List Nat :=
  fun p _ _ _ => (p.data.length % 256) :: List.replicate 31 0

def salt0 : List Nat := List.replicate 32 0

/-- A concrete stored record whose password is "Secret" under `kdfLen`. -/
def cTest : Credentials := createInitialCredentials kdfLen 0 salt0 "Secret"

/-! ## Helper lemmas: base64 -/

theorem b64Alphabet_length : b64Alphabet.length = 64 := rfl

theorem b64Char_of_ge (n : Nat) (h : 64 ≤ n) : b64Char n = 'A' := by
  unfold b64Char
  exact List.getD_eq_default _ _ (by rw [b64Alphabet_length]; exact h)

theorem b64CharIndex_b64Char : ∀ n < 64, b64CharIndex (b64Char n) = some n := by decide

theorem b64Keep_b64Char (n : Nat) : b64Keep (b64Char n) = true := by
  by_cases h : n < 64
  · simp [b64Keep, b64CharIndex_b64Char n h]
  · rw [b64Char_of_ge n (Nat.le_of_not_lt h)]
    decide

theorem b64Char_ne_dollar (n : Nat) : b64Char n ≠ '$' := by
  by_cases h : n < 64
  · revert n h
    decide
  · rw [b64Char_of_ge n (Nat.le_of_not_lt h)]
    decide

theorem b64Char_ne_pad (n : Nat) : b64Char n ≠ '=' := by
  by_cases h : n < 64
  · revert n h
    decide
  · rw [b64Char_of_ge n (Nat.le_of_not_lt h)]
    decide

theorem mem_b64encodeChars :
    ∀ (bs : List Nat) (ch : Char), ch ∈ b64encodeChars bs → b64Keep ch = true ∧ ch ≠ '$'
  | [], ch, h => by simp [b64encodeChars] at h
  | [a], ch, h => by
      simp only [b64encodeChars, List.mem_cons, List.not_mem_nil, or_false] at h
      rcases h with h | h | h | h <;> subst h
      · exact ⟨b64Keep_b64Char _, b64Char_ne_dollar _⟩
      · exact ⟨b64Keep_b64Char _, b64Char_ne_dollar _⟩
      · exact ⟨by decide, by decide⟩
      · exact ⟨by decide, by decide⟩
  | [a, b], ch, h => by
      simp only [b64encodeChars, List.mem_cons, List.not_mem_nil, or_false] at h
      rcases h with h | h | h | h <;> subst h
      · exact ⟨b64Keep_b64Char _, b64Char_ne_dollar _⟩
      · exact ⟨b64Keep_b64Char _, b64Char_ne_dollar _⟩
      · exact ⟨b64Keep_b64Char _, b64Char_ne_dollar _⟩
      · exact ⟨by decide, by decide⟩
  | a :: b :: c :: rest, ch, h => by
      simp only [b64encodeChars, List.mem_cons] at h
      rcases h with h | h | h | h | h
      · exact h ▸ ⟨b64Keep_b64Char _, b64Char_ne_dollar _⟩
      · exact h ▸ ⟨b64Keep_b64Char _, b64Char_ne_dollar _⟩
      · exact h ▸ ⟨b64Keep_b64Char _, b64Char_ne_dollar _⟩
      · exact h ▸ ⟨b64Keep_b64Char _, b64Char_ne_dollar _⟩
      · exact mem_b64encodeChars rest ch h

theorem filter_b64encodeChars (bs : List Nat) :
    (b64encodeChars bs).filter b64Keep = b64encodeChars bs :=
  List.filter_eq_self.mpr (fun ch hch => (mem_b64encodeChars bs ch hch).1)

theorem b64decodeQuads_encode :
    ∀ bs : List Nat, ByteList bs → b64decodeQuads (b64encodeChars bs) = some bs
  | [], _ => rfl
  | [a], h => by
      have ha : a < 256 := h a (by simp)
      show b64decodeQuads [b64Char (a / 4), b64Char (a % 4 * 16), '=', '='] = some [a]
      unfold b64decodeQuads
      rw [b64CharIndex_b64Char (a / 4) (by omega), b64CharIndex_b64Char (a % 4 * 16) (by omega)]
      simp only [if_pos rfl, and_self, reduceIte]
      have : a / 4 * 4 + a % 4 * 16 / 16 = a := by omega
      rw [this]
  | [a, b], h => by
      have ha : a < 256 := h a (by simp)
      have hb : b < 256 := h b (by simp)
      show b64decodeQuads
          [b64Char (a / 4), b64Char (a % 4 * 16 + b / 16), b64Char (b % 16 * 4), '='] =
        some [a, b]
      unfold b64decodeQuads
      rw [b64CharIndex_b64Char (a / 4) (by omega),
        b64CharIndex_b64Char (a % 4 * 16 + b / 16) (by omega)]
      dsimp only
      rw [if_neg (b64Char_ne_pad (b % 16 * 4))]
      rw [b64CharIndex_b64Char (b % 16 * 4) (by omega)]
      simp only [if_pos rfl, reduceIte]
      have h1 : a / 4 * 4 + (a % 4 * 16 + b / 16) / 16 = a := by omega
      have h2 : (a % 4 * 16 + b / 16) % 16 * 16 + b % 16 * 4 / 4 = b := by omega
      rw [h1, h2]
  | a :: b :: c :: rest, h => by
      have ha : a < 256 := h a (by simp)
      have hb : b < 256 := h b (by simp)
      have hc : c < 256 := h c (by simp)
      have hrest : ByteList rest := fun x hx => h x (by simp [hx])
      show b64decodeQuads (b64Char (a / 4) :: b64Char (a % 4 * 16 + b / 16) ::
          b64Char (b % 16 * 4 + c / 64) :: b64Char (c % 64) :: b64encodeChars rest) =
        some (a :: b :: c :: rest)
      unfold b64decodeQuads
      rw [b64CharIndex_b64Char (a / 4) (by omega),
        b64CharIndex_b64Char (a % 4 * 16 + b / 16) (by omega)]
      dsimp only
      rw [if_neg (b64Char_ne_pad (b % 16 * 4 + c / 64))]
      rw [b64CharIndex_b64Char (b % 16 * 4 + c / 64) (by omega)]
      dsimp only
      rw [if_neg (b64Char_ne_pad (c % 64))]
      rw [b64CharIndex_b64Char (c % 64) (by omega)]
      dsimp only
      rw [b64decodeQuads_encode rest hrest]
      simp only [Option.map_some']
      have h1 : a / 4 * 4 + (a % 4 * 16 + b / 16) / 16 = a := by omega
      have h2 : (a % 4 * 16 + b / 16) % 16 * 16 + (b % 16 * 4 + c / 64) / 4 = b := by omega
      have h3 : (b % 16 * 4 + c / 64) % 4 * 64 + c % 64 = c := by omega
      rw [h1, h2, h3]

theorem b64decode_encode (bs : List Nat) (h : ByteList bs) :
    b64decode (b64encodeChars bs) = some bs := by
  unfold b64decode
  rw [filter_b64encodeChars]
  exact b64decodeQuads_encode bs h

/-! ## Helper lemmas: splitting and prefixes -/

theorem splitLimitAux_zero (sep : Char) :
    ∀ (l acc : List Char), splitLimitAux sep l 0 acc = [acc.reverse ++ l]
  | [], acc => by simp [splitLimitAux]
  | c :: rest, acc => by
      rw [splitLimitAux, splitLimitAux_zero sep rest (c :: acc)]
      simp

theorem splitLimitAux_no_sep (sep : Char) :
    ∀ (l : List Char), sep ∉ l → ∀ (n : Nat) (acc rest : List Char),
      splitLimitAux sep (l ++ sep :: rest) (n + 1) acc =
        (acc.reverse ++ l) :: splitLimitAux sep rest n []
  | [], _, n, acc, rest => by simp [splitLimitAux]
  | c :: l, hl, n, acc, rest => by
      have hc : ¬(c = sep) := fun e => hl (e ▸ List.mem_cons_self c l)
      rw [List.cons_append, splitLimitAux, if_neg hc,
        splitLimitAux_no_sep sep l (fun m => hl (List.mem_cons_of_mem c m)) n (c :: acc) rest]
      simp

theorem strStartsWith_append :
    ∀ (pat rest : List Char), strStartsWith (pat ++ rest) pat = true
  | [], rest => by cases rest <;> rfl
  | c :: pat, rest => by
      rw [List.cons_append]
      show (c == c && strStartsWith (pat ++ rest) pat) = true
      simp [strStartsWith_append pat rest]

/-! ## Helper lemmas: verify of a produced hash -/

/-- Parsing a hash string produced by `hash_password_pbkdf2` recovers the
salt, the iteration count and the stored key, so `verify_password_pbkdf2`
reduces to the `compare_digest` of the stored key against the recomputed
one. -/
theorem verify_hash_password (kdf : String → List Nat → Nat → Nat → List Nat)
    (hk : ∀ p s n l, ByteList (kdf p s n l)) (p q : String) (salt : List Nat)
    (hs : ByteList salt) :
    verify_password_pbkdf2 kdf q (hash_password_pbkdf2 kdf p salt) =
      .ok (decide (kdf p salt PBKDF2_ITERATIONS PBKDF2_KEY_LEN =
        kdf q salt PBKDF2_ITERATIONS PBKDF2_KEY_LEN)) := by
  unfold verify_password_pbkdf2 hash_password_pbkdf2
  have hdata : (String.mk ("pbkdf2_sha256$".data ++ (toString PBKDF2_ITERATIONS).data ++ '$' ::
      b64encodeChars salt ++ '$' ::
        b64encodeChars (kdf p salt PBKDF2_ITERATIONS PBKDF2_KEY_LEN))).data =
      "pbkdf2_sha256$".data ++ ((toString PBKDF2_ITERATIONS).data ++ '$' ::
        b64encodeChars salt ++ '$' ::
          b64encodeChars (kdf p salt PBKDF2_ITERATIONS PBKDF2_KEY_LEN)) := rfl
  rw [hdata, strStartsWith_append]
  have hsplit : splitLimit '$' 3 ("pbkdf2_sha256$".data ++ ((toString PBKDF2_ITERATIONS).data ++
      '$' :: b64encodeChars salt ++ '$' ::
        b64encodeChars (kdf p salt PBKDF2_ITERATIONS PBKDF2_KEY_LEN))) =
      ["pbkdf2_sha256".data, (toString PBKDF2_ITERATIONS).data, b64encodeChars salt,
        b64encodeChars (kdf p salt PBKDF2_ITERATIONS PBKDF2_KEY_LEN)] := by
    have e1 : "pbkdf2_sha256$".data ++ ((toString PBKDF2_ITERATIONS).data ++
        '$' :: b64encodeChars salt ++ '$' ::
          b64encodeChars (kdf p salt PBKDF2_ITERATIONS PBKDF2_KEY_LEN)) =
        "pbkdf2_sha256".data ++ '$' :: ((toString PBKDF2_ITERATIONS).data ++
          '$' :: (b64encodeChars salt ++ '$' ::
            b64encodeChars (kdf p salt PBKDF2_ITERATIONS PBKDF2_KEY_LEN))) := by
      simp
    rw [splitLimit, e1,
      splitLimitAux_no_sep '$' ("pbkdf2_sha256".data) (by decide) 2 [] _,
      splitLimitAux_no_sep '$' ((toString PBKDF2_ITERATIONS).data) (by decide) 1 [] _,
      splitLimitAux_no_sep '$' (b64encodeChars salt)
        (fun m => (mem_b64encodeChars salt '$' m).2 rfl) 0 [] _,
      splitLimitAux_zero]
    simp
  rw [if_pos rfl, hsplit]
  dsimp only
  rw [b64decode_encode salt hs,
    b64decode_encode (kdf p salt PBKDF2_ITERATIONS PBKDF2_KEY_LEN) (hk p salt _ _)]
  dsimp only
  have hiter : pyInt (String.mk (toString PBKDF2_ITERATIONS).data) = some PBKDF2_ITERATIONS := by
    decide
  rw [hiter]

/-! ## Helper lemmas: the credential state machine -/

@[simp] theorem reset_username (c : Credentials) :
    (resetFailedAttempts c).username = c.username := rfl

@[simp] theorem reset_email (c : Credentials) :
    (resetFailedAttempts c).email = c.email := rfl

@[simp] theorem reset_password_hash (c : Credentials) :
    (resetFailedAttempts c).password_hash = c.password_hash := rfl

@[simp] theorem reset_failed_attempts_val (c : Credentials) :
    (resetFailedAttempts c).failed_attempts = 0 := rfl

@[simp] theorem reset_locked_until (c : Credentials) :
    (resetFailedAttempts c).locked_until = none := rfl

theorem rfa_username (now : Int) (c : Credentials) :
    (recordFailedAttempt now c).username = c.username := by
  unfold recordFailedAttempt
  dsimp only
  split <;> rfl

theorem rfa_email (now : Int) (c : Credentials) :
    (recordFailedAttempt now c).email = c.email := by
  unfold recordFailedAttempt
  dsimp only
  split <;> rfl

theorem rfa_password_hash (now : Int) (c : Credentials) :
    (recordFailedAttempt now c).password_hash = c.password_hash := by
  unfold recordFailedAttempt
  dsimp only
  split <;> rfl

theorem rfa_failed (now : Int) (c : Credentials) :
    (recordFailedAttempt now c).failed_attempts = c.failed_attempts + 1 := by
  unfold recordFailedAttempt
  dsimp only
  split <;> rfl

theorem rfa_locked_of_lt (now : Int) (c : Credentials)
    (h : c.failed_attempts + 1 < MAX_LOGIN_ATTEMPTS) :
    (recordFailedAttempt now c).locked_until = c.locked_until := by
  unfold recordFailedAttempt
  dsimp only
  rw [if_neg]
  omega

theorem rfa_locked_of_ge (now : Int) (c : Credentials)
    (h : MAX_LOGIN_ATTEMPTS ≤ c.failed_attempts + 1) :
    (recordFailedAttempt now c).locked_until =
      some (now + LOGIN_ATTEMPT_WINDOW_MINUTES * 60) := by
  unfold recordFailedAttempt
  dsimp only
  rw [if_pos h]

theorem identifierMatches_rfa (idf : String) (now : Int) (c : Credentials) :
    identifierMatches idf (recordFailedAttempt now c) = identifierMatches idf c := by
  unfold identifierMatches
  rw [rfa_username, rfa_email]

theorem identifierMatches_of_admin (c : Credentials) (hu : c.username = "admin") :
    identifierMatches "admin" c = true := by
  unfold identifierMatches
  rw [hu]
  simp

/-- A locked record (lock still in the future) short-circuits `authenticate`
with the distinct lockout message and no state change at all. -/
theorem auth_locked_eq (kdf : String → List Nat → Nat → Nat → List Nat) (now : Int)
    (idf pw : String) (st : AdminState) (t : Int)
    (hl : st.credentials.locked_until = some t) (hlt : now < t) :
    authenticate kdf now idf pw st =
      .ok ((false, "Account is temporarily locked due to too many failed attempts"), st) := by
  unfold authenticate isAccountLocked
  rw [hl]
  dsimp only
  rw [if_pos hlt]

/-- An elapsed lock is cleared first; the call then proceeds exactly like a
call on the reset record. -/
theorem auth_expired_eq (kdf : String → List Nat → Nat → Nat → List Nat) (now : Int)
    (idf pw : String) (c : Credentials) (ss la : Option Int) (t : Int)
    (hl : c.locked_until = some t) (ht : t ≤ now) :
    authenticate kdf now idf pw ⟨c, ss, la⟩ =
      authenticate kdf now idf pw ⟨resetFailedAttempts c, ss, la⟩ := by
  unfold authenticate isAccountLocked
  rw [hl]
  dsimp only
  rw [if_neg (not_lt.mpr ht), reset_locked_until]

theorem auth_badpw_eq (kdf : String → List Nat → Nat → Nat → List Nat) (now : Int)
    (idf pw : String) (st : AdminState)
    (hl : st.credentials.locked_until = none)
    (hid : identifierMatches idf st.credentials = true)
    (hv : verify_password_pbkdf2 kdf pw st.credentials.password_hash = .ok false) :
    authenticate kdf now idf pw st =
      .ok ((false, "Invalid credentials"),
        { st with credentials := recordFailedAttempt now st.credentials }) := by
  unfold authenticate isAccountLocked
  rw [hl]
  dsimp only
  rw [if_pos hid, hv]

theorem auth_badid_eq (kdf : String → List Nat → Nat → Nat → List Nat) (now : Int)
    (idf pw : String) (st : AdminState)
    (hl : st.credentials.locked_until = none)
    (hid : identifierMatches idf st.credentials = false) :
    authenticate kdf now idf pw st =
      .ok ((false, "Invalid credentials"),
        { st with credentials := recordFailedAttempt now st.credentials }) := by
  unfold authenticate isAccountLocked
  rw [hl]
  dsimp only
  rw [if_neg (by rw [hid]; exact Bool.false_ne_true)]

theorem auth_success_eq (kdf : String → List Nat → Nat → Nat → List Nat) (now : Int)
    (idf pw : String) (st : AdminState)
    (hl : st.credentials.locked_until = none)
    (hid : identifierMatches idf st.credentials = true)
    (hv : verify_password_pbkdf2 kdf pw st.credentials.password_hash = .ok true) :
    authenticate kdf now idf pw st =
      .ok ((true, "Success"),
        ⟨{ resetFailedAttempts st.credentials with last_login := some now },
          some now, some now⟩) := by
  unfold authenticate isAccountLocked
  rw [hl]
  dsimp only
  rw [if_pos hid, hv]

theorem auth_raise_eq (kdf : String → List Nat → Nat → Nat → List Nat) (now : Int)
    (idf pw : String) (st : AdminState) (e : String)
    (hl : st.credentials.locked_until = none)
    (hid : identifierMatches idf st.credentials = true)
    (hv : verify_password_pbkdf2 kdf pw st.credentials.password_hash = .error e) :
    authenticate kdf now idf pw st = .error (e, st) := by
  unfold authenticate isAccountLocked
  rw [hl]
  dsimp only
  rw [if_pos hid, hv]

/-- Every outcome of `change_password`: a raise carries the untouched
record, a wrong old password returns it unchanged, and success rewrites
exactly the hash, `last_password_change` and `require_password_change`. -/
theorem change_password_cases (kdf : String → List Nat → Nat → Nat → List Nat)
    (now : Int) (salt : List Nat) (oldPw newPw : String) (c : Credentials) :
    (∃ e, change_password kdf now salt oldPw newPw c = .error (e, c)) ∨
    change_password kdf now salt oldPw newPw c = .ok (false, c) ∨
    change_password kdf now salt oldPw newPw c =
      .ok (true, { c with password_hash := hash_password_pbkdf2 kdf newPw salt,
                          last_password_change := now,
                          require_password_change := false }) := by
  unfold change_password
  cases hv : verify_password_pbkdf2 kdf oldPw c.password_hash with
  | error e => exact .inl ⟨e, rfl⟩
  | ok b =>
      cases b
      · exact .inr (.inl rfl)
      · dsimp only
        split
        · exact .inl ⟨_, rfl⟩
        split
        · exact .inl ⟨_, rfl⟩
        split
        · exact .inl ⟨_, rfl⟩
        split
        · exact .inl ⟨_, rfl⟩
        split
        · exact .inl ⟨_, rfl⟩
        · exact .inr (.inr rfl)

/-- Outcomes of `authenticate` on a record without an active lock. -/
theorem auth_cases_unlocked (kdf : String → List Nat → Nat → Nat → List Nat)
    (now : Int) (idf pw : String) (c1 : Credentials) (ss la : Option Int)
    (hl : c1.locked_until = none) :
    (identifierMatches idf c1 = false ∧
       authenticate kdf now idf pw ⟨c1, ss, la⟩ =
         .ok ((false, "Invalid credentials"), ⟨recordFailedAttempt now c1, ss, la⟩)) ∨
    (identifierMatches idf c1 = true ∧
      ((∃ e, verify_password_pbkdf2 kdf pw c1.password_hash = .error e ∧
          authenticate kdf now idf pw ⟨c1, ss, la⟩ = .error (e, ⟨c1, ss, la⟩)) ∨
       (verify_password_pbkdf2 kdf pw c1.password_hash = .ok false ∧
          authenticate kdf now idf pw ⟨c1, ss, la⟩ =
            .ok ((false, "Invalid credentials"), ⟨recordFailedAttempt now c1, ss, la⟩)) ∨
       (verify_password_pbkdf2 kdf pw c1.password_hash = .ok true ∧
          authenticate kdf now idf pw ⟨c1, ss, la⟩ =
            .ok ((true, "Success"),
              ⟨{ resetFailedAttempts c1 with last_login := some now },
                some now, some now⟩)))) := by
  by_cases hid : identifierMatches idf c1 = true
  · refine .inr ⟨hid, ?_⟩
    cases hv : verify_password_pbkdf2 kdf pw c1.password_hash with
    | error e => exact .inl ⟨e, rfl, auth_raise_eq kdf now idf pw ⟨c1, ss, la⟩ e hl hid hv⟩
    | ok b =>
        cases b
        · exact .inr (.inl ⟨rfl, auth_badpw_eq kdf now idf pw ⟨c1, ss, la⟩ hl hid hv⟩)
        · exact .inr (.inr ⟨rfl, auth_success_eq kdf now idf pw ⟨c1, ss, la⟩ hl hid hv⟩)
  · have hid' : identifierMatches idf c1 = false := Bool.eq_false_iff.mpr (by exact hid)
    exact .inl ⟨hid', auth_badid_eq kdf now idf pw ⟨c1, ss, la⟩ hl hid'⟩

/-- Exhaustive outcome analysis of `authenticate`:
either the lock is active (short circuit, no change), or the call proceeds
on `c1` — the stored record, or the stored record auto-unlocked because the
lock had elapsed — and fails on the identifier, raises from a malformed
hash, fails on the password, or succeeds. -/
theorem auth_cases (kdf : String → List Nat → Nat → Nat → List Nat)
    (now : Int) (idf pw : String) (c : Credentials) (ss la : Option Int) :
    (∃ t, c.locked_until = some t ∧ now < t ∧
       authenticate kdf now idf pw ⟨c, ss, la⟩ =
         .ok ((false, "Account is temporarily locked due to too many failed attempts"),
           ⟨c, ss, la⟩)) ∨
    (∃ c1, ((c.locked_until = none ∧ c1 = c) ∨
            (∃ t, c.locked_until = some t ∧ t ≤ now ∧ c1 = resetFailedAttempts c)) ∧
      ((identifierMatches idf c1 = false ∧
          authenticate kdf now idf pw ⟨c, ss, la⟩ =
            .ok ((false, "Invalid credentials"), ⟨recordFailedAttempt now c1, ss, la⟩)) ∨
       (identifierMatches idf c1 = true ∧
         ((∃ e, verify_password_pbkdf2 kdf pw c1.password_hash = .error e ∧
             authenticate kdf now idf pw ⟨c, ss, la⟩ = .error (e, ⟨c1, ss, la⟩)) ∨
          (verify_password_pbkdf2 kdf pw c1.password_hash = .ok false ∧
             authenticate kdf now idf pw ⟨c, ss, la⟩ =
               .ok ((false, "Invalid credentials"), ⟨recordFailedAttempt now c1, ss, la⟩)) ∨
          (verify_password_pbkdf2 kdf pw c1.password_hash = .ok true ∧
             authenticate kdf now idf pw ⟨c, ss, la⟩ =
               .ok ((true, "Success"),
                 ⟨{ resetFailedAttempts c1 with last_login := some now },
                   some now, some now⟩)))))) := by
  rcases hl : c.locked_until with _ | t
  · exact .inr ⟨c, .inl ⟨rfl, rfl⟩, auth_cases_unlocked kdf now idf pw c ss la hl⟩
  · by_cases hlt : now < t
    · exact .inl ⟨t, rfl, hlt, auth_locked_eq kdf now idf pw ⟨c, ss, la⟩ t hl hlt⟩
    · have ht : t ≤ now := not_lt.mp hlt
      have heq := auth_expired_eq kdf now idf pw c ss la t hl ht
      refine .inr ⟨resetFailedAttempts c, .inr ⟨t, rfl, ht, rfl⟩, ?_⟩
      rcases auth_cases_unlocked kdf now idf pw (resetFailedAttempts c) ss la rfl with
        ⟨hid, hEq⟩ | ⟨hid, ⟨e, hv, hEq⟩ | ⟨hv, hEq⟩ | ⟨hv, hEq⟩⟩
      · exact .inl ⟨hid, heq.trans hEq⟩
      · exact .inr ⟨hid, .inl ⟨e, hv, heq.trans hEq⟩⟩
      · exact .inr ⟨hid, .inr (.inl ⟨hv, heq.trans hEq⟩)⟩
      · exact .inr ⟨hid, .inr (.inr ⟨hv, heq.trans hEq⟩)⟩

/-- `recordFailedAttempt` preserves the lockout invariant when applied — as
`authenticate` always does — to a record without an active lock whose
counter is still below the threshold. -/
theorem lockInv_rfa (now : Int) (c1 : Credentials) (hl : c1.locked_until = none)
    (hf : c1.failed_attempts < MAX_LOGIN_ATTEMPTS) :
    LockInv (recordFailedAttempt now c1) := by
  constructor
  · intro hnone
    by_cases h5 : MAX_LOGIN_ATTEMPTS ≤ c1.failed_attempts + 1
    · rw [rfa_locked_of_ge now c1 h5] at hnone
      exact absurd hnone (by simp)
    · rw [rfa_failed]
      unfold MAX_LOGIN_ATTEMPTS at h5 ⊢
      omega
  · intro t ht
    by_cases h5 : MAX_LOGIN_ATTEMPTS ≤ c1.failed_attempts + 1
    · rw [rfa_failed]
      unfold MAX_LOGIN_ATTEMPTS at h5 hf ⊢
      omega
    · rw [rfa_locked_of_lt now c1 (by omega), hl] at ht
      exact absurd ht (by simp)

theorem lockInv_reset (c : Credentials) : LockInv (resetFailedAttempts c) := by
  constructor
  · intro _
    rw [reset_failed_attempts_val]
    unfold MAX_LOGIN_ATTEMPTS
    omega
  · intro t ht
    rw [reset_locked_until] at ht
    exact absurd ht (by simp)

theorem lockInv_createInitial (kdf : String → List Nat → Nat → Nat → List Nat)
    (now : Int) (salt : List Nat) (pw : String) :
    LockInv (createInitialCredentials kdf now salt pw) := by
  constructor
  · intro _
    show 0 < MAX_LOGIN_ATTEMPTS
    unfold MAX_LOGIN_ATTEMPTS
    omega
  · intro t ht
    exact absurd ht (by simp [createInitialCredentials])

/-- The lockout invariant is preserved by every `authenticate` outcome. -/
theorem lockInv_auth (kdf : String → List Nat → Nat → Nat → List Nat)
    (now : Int) (idf pw : String) (c : Credentials) (ss la : Option Int)
    (hinv : LockInv c) :
    (∀ res st2, authenticate kdf now idf pw ⟨c, ss, la⟩ = .ok (res, st2) →
       LockInv st2.credentials) ∧
    (∀ e st2, authenticate kdf now idf pw ⟨c, ss, la⟩ = .error (e, st2) →
       LockInv st2.credentials) := by
  have hc1 : ∀ c1 : Credentials,
      ((c.locked_until = none ∧ c1 = c) ∨
        (∃ t, c.locked_until = some t ∧ t ≤ now ∧ c1 = resetFailedAttempts c)) →
      c1.locked_until = none ∧ c1.failed_attempts < MAX_LOGIN_ATTEMPTS ∧ LockInv c1 := by
    rintro c1 (⟨hn, rfl⟩ | ⟨t, ht, hle, rfl⟩)
    · exact ⟨hn, hinv.1 hn, hinv⟩
    · refine ⟨rfl, ?_, lockInv_reset c⟩
      rw [reset_failed_attempts_val]
      unfold MAX_LOGIN_ATTEMPTS
      omega
  rcases auth_cases kdf now idf pw c ss la with
    ⟨t, hl, hlt, hEq⟩ |
    ⟨c1, hc, ⟨hid, hEq⟩ | ⟨hid, ⟨e, hv, hEq⟩ | ⟨hv, hEq⟩ | ⟨hv, hEq⟩⟩⟩
  · constructor
    · intro res st2 h
      rw [hEq] at h
      cases h
      exact hinv
    · intro e st2 h
      rw [hEq] at h
      cases h
  · obtain ⟨h1, h2, _⟩ := hc1 c1 hc
    constructor
    · intro res st2 h
      rw [hEq] at h
      cases h
      exact lockInv_rfa now c1 h1 h2
    · intro e st2 h
      rw [hEq] at h
      cases h
  · obtain ⟨_, _, h3⟩ := hc1 c1 hc
    constructor
    · intro res st2 h
      rw [hEq] at h
      cases h
    · intro e2 st2 h
      rw [hEq] at h
      cases h
      exact h3
  · obtain ⟨h1, h2, _⟩ := hc1 c1 hc
    constructor
    · intro res st2 h
      rw [hEq] at h
      cases h
      exact lockInv_rfa now c1 h1 h2
    · intro e st2 h
      rw [hEq] at h
      cases h
  · constructor
    · intro res st2 h
      rw [hEq] at h
      cases h
      exact lockInv_reset c1
    · intro e st2 h
      rw [hEq] at h
      cases h

/-- The lockout invariant is preserved by every `change_password` outcome. -/
theorem lockInv_change (kdf : String → List Nat → Nat → Nat → List Nat)
    (now : Int) (salt : List Nat) (oldPw newPw : String) (c : Credentials)
    (hinv : LockInv c) :
    (∀ b c2, change_password kdf now salt oldPw newPw c = .ok (b, c2) → LockInv c2) ∧
    (∀ e c2, change_password kdf now salt oldPw newPw c = .error (e, c2) → LockInv c2) := by
  rcases change_password_cases kdf now salt oldPw newPw c with ⟨e, hEq⟩ | hEq | hEq
  · constructor
    · intro b c2 h
      rw [hEq] at h
      cases h
    · intro e2 c2 h
      rw [hEq] at h
      cases h
      exact hinv
  · constructor
    · intro b c2 h
      rw [hEq] at h
      cases h
      exact hinv
    · intro e c2 h
      rw [hEq] at h
      cases h
  · constructor
    · intro b c2 h
      rw [hEq] at h
      cases h
      exact hinv
    · intro e c2 h
      rw [hEq] at h
      cases h

/-- Every reachable credential record satisfies the lockout invariant. -/
theorem reachable_lockInv (kdf : String → List Nat → Nat → Nat → List Nat)
    (c : Credentials) (h : Reachable kdf c) : LockInv c := by
  induction h with
  | init now salt pw => exact lockInv_createInitial kdf now salt pw
  | authOk now idf pw ss la hc h ih => exact (lockInv_auth kdf now idf pw _ ss la ih).1 _ _ h
  | authRaise now idf pw ss la hc h ih => exact (lockInv_auth kdf now idf pw _ ss la ih).2 _ _ h
  | changeOk now salt oldPw newPw hc h ih =>
      exact (lockInv_change kdf now salt oldPw newPw _ ih).1 _ _ h
  | changeRaise now salt oldPw newPw hc h ih =>
      exact (lockInv_change kdf now salt oldPw newPw _ ih).2 _ _ h

/-- A freshly armed session (both timestamps set to the current instant) is
valid. -/
theorem session_valid_fresh (now : Int) (c : Credentials) :
    is_session_valid now ⟨c, some now, some now⟩ = true := by
  unfold is_session_valid SESSION_TIMEOUT_MINUTES
  dsimp only
  rw [if_neg (by omega), if_neg (by omega)]

/-- Any password returned by the `_generate_secure_password` loop has the
requested length and passes all four character-class checks. -/
theorem generateSecurePassword_spec :
    ∀ (rounds : List (Nat → Char)) (len : Nat) (pw : String),
      generateSecurePassword len rounds = some pw →
        pyLen pw = len ∧ passwordOk pw = true
  | [], _, _, h => by simp [generateSecurePassword] at h
  | r :: rest, len, pw, h => by
      unfold generateSecurePassword at h
      by_cases hok : passwordOk (String.mk ((List.range len).map r)) = true
      · rw [if_pos hok] at h
        cases h
        refine ⟨?_, hok⟩
        show ((List.range len).map r).length = len
        rw [List.length_map, List.length_range]
      · rw [if_neg (by simpa using hok)] at h
        exact generateSecurePassword_spec rest len pw h

/-! ## Claim theorems -/

/-- C2: `is_session_valid` is false whenever either timestamp is absent;
with both set it is true exactly when the absolute session age is at most 30
minutes and the inactivity age at most 15 minutes; consequently, once the
absolute age exceeds 30 minutes it is false no matter how recently
`update_activity` refreshed `last_activity`. -/
theorem c2_session_validity (now touch : Int) (st : AdminState) :
    (is_session_valid now st = true ↔
      ∃ ss la, st.session_start = some ss ∧ st.last_activity = some la ∧
        now - ss ≤ 30 * 60 ∧ now - la ≤ 15 * 60) ∧
    (∀ ss, st.session_start = some ss → 30 * 60 < now - ss →
       is_session_valid now (update_activity touch st) = false) := by
  constructor
  · unfold is_session_valid SESSION_TIMEOUT_MINUTES
    rcases hss : st.session_start with _ | ss
    · simp
    · rcases hla : st.last_activity with _ | la
      · simp
      · dsimp only
        constructor
        · intro h
          refine ⟨ss, la, rfl, rfl, ?_, ?_⟩
          · by_contra hc
            rw [if_pos (by omega)] at h
            exact Bool.noConfusion h
          · by_contra hc
            by_cases h1 : (30 : Int) * 60 < now - ss
            · rw [if_pos (by omega)] at h
              exact Bool.noConfusion h
            · rw [if_neg (by omega), if_pos (by omega)] at h
              exact Bool.noConfusion h
        · rintro ⟨ss', la', hss', hla', h30, h15⟩
          cases hss'
          cases hla'
          rw [if_neg (by omega), if_neg (by omega)]
  · intro ss hss h30
    unfold update_activity is_session_valid SESSION_TIMEOUT_MINUTES
    dsimp only
    rw [hss]
    dsimp only
    rw [if_pos (by omega)]

/-- C2 witness: a freshly armed session at time 0 is valid at time 100, and
a session started at time 0 is invalid at time 2000 even though
`update_activity` ran at time 1999. -/
theorem c2_witness :
    is_session_valid 100 ⟨cTest, some 0, some 0⟩ = true ∧
    is_session_valid 2000 (update_activity 1999 ⟨cTest, some 0, some 0⟩) = false :=
  ⟨(c2_session_validity 100 0 ⟨cTest, some 0, some 0⟩).1.mpr
      ⟨0, 0, rfl, rfl, by decide, by decide⟩,
   (c2_session_validity 2000 1999 ⟨cTest, some 0, some 0⟩).2 0 rfl (by decide)⟩

/-- C5: a lock that has already elapsed is cleared (counter reset to 0,
`locked_until` to absent) before the presented credentials are evaluated
normally: a correct pair succeeds on that very call, and a wrong password
yields the generic invalid-credentials failure (not the locked message),
starting the counter again at 1. -/
theorem c5_expired_lock_auto_unlocks (kdf : String → List Nat → Nat → Nat → List Nat)
    (now t : Int) (idf good bad : String) (c : Credentials) (ss la : Option Int)
    (hl : c.locked_until = some t) (ht : t ≤ now)
    (hid : identifierMatches idf c = true)
    (hgood : verify_password_pbkdf2 kdf good c.password_hash = .ok true)
    (hbad : verify_password_pbkdf2 kdf bad c.password_hash = .ok false) :
    authenticate kdf now idf good ⟨c, ss, la⟩ =
      .ok ((true, "Success"),
        ⟨{ resetFailedAttempts c with last_login := some now }, some now, some now⟩) ∧
    authenticate kdf now idf bad ⟨c, ss, la⟩ =
      .ok ((false, "Invalid credentials"),
        ⟨recordFailedAttempt now (resetFailedAttempts c), ss, la⟩) ∧
    (recordFailedAttempt now (resetFailedAttempts c)).failed_attempts = 1 := by
  have hid' : identifierMatches idf (resetFailedAttempts c) = true := by
    unfold identifierMatches at hid ⊢
    rw [reset_username, reset_email]
    exact hid
  refine ⟨?_, ?_, ?_⟩
  · rw [auth_expired_eq kdf now idf good c ss la t hl ht]
    exact auth_success_eq kdf now idf good ⟨resetFailedAttempts c, ss, la⟩ rfl hid'
      (by rw [reset_password_hash]; exact hgood)
  · rw [auth_expired_eq kdf now idf bad c ss la t hl ht]
    exact auth_badpw_eq kdf now idf bad ⟨resetFailedAttempts c, ss, la⟩ rfl hid'
      (by rw [reset_password_hash]; exact hbad)
  · rw [rfa_failed, reset_failed_attempts_val]

/-- C5 witness: with the lock expired at time 5, a call at time 10 with the
correct password succeeds and fully clears the lockout bookkeeping. -/
theorem c5_witness :
    authenticate kdfLen 10 "admin" "Secret"
        ⟨{ cTest with failed_attempts := 5, locked_until := some 5 }, none, none⟩ =
      .ok ((true, "Success"),
        ⟨{ resetFailedAttempts { cTest with failed_attempts := 5, locked_until := some 5 } with
            last_login := some 10 }, some 10, some 10⟩) :=
  (c5_expired_lock_auto_unlocks kdfLen 10 5 "admin" "Secret" "bad"
    { cTest with failed_attempts := 5, locked_until := some 5 } none none
    rfl (by decide) (by decide) rfl rfl).1

/-- C6: while `locked_until` is set and still in the future, `authenticate`
fails with the distinct account-locked message and leaves the whole state —
in particular `failed_attempts` and `locked_until` — exactly as it was,
whatever identifier and password were presented. -/
theorem c6_locked_short_circuit (kdf : String → List Nat → Nat → Nat → List Nat)
    (now : Int) (idf pw : String) (c : Credentials) (ss la : Option Int) (t : Int)
    (hl : c.locked_until = some t) (hfut : now < t) :
    authenticate kdf now idf pw ⟨c, ss, la⟩ =
      .ok ((false, "Account is temporarily locked due to too many failed attempts"),
        ⟨c, ss, la⟩) :=
  auth_locked_eq kdf now idf pw ⟨c, ss, la⟩ t hl hfut

/-- C6 witness: at time 50, a record locked until time 100 rejects even the
correct identifier/password pair with the locked message and is returned
unchanged. -/
theorem c6_witness :
    authenticate kdfLen 50 "admin" "Secret"
        ⟨{ cTest with failed_attempts := 5, locked_until := some 100 }, none, none⟩ =
      .ok ((false, "Account is temporarily locked due to too many failed attempts"),
        ⟨{ cTest with failed_attempts := 5, locked_until := some 100 }, none, none⟩) :=
  c6_locked_short_circuit kdfLen 50 "admin" "Secret"
    { cTest with failed_attempts := 5, locked_until := some 100 } none none 100 rfl (by decide)

/-- C9: on an empty store, initialization creates a record with
`require_password_change = true` whose hash is that of the disclosed
password, and the disclosed password has length 16 and contains a lowercase
letter, an uppercase letter, a digit and a symbol of the fixed set (the
generator resamples until all four classes are present). -/
theorem c9_initialize_fresh_record (kdf : String → List Nat → Nat → Nat → List Nat)
    (now : Int) (salt : List Nat) (rounds : List (Nat → Char))
    (c : Credentials) (pw : String)
    (h : initializeStore kdf now salt rounds none = some (c, some pw)) :
    c.require_password_change = true ∧
    c.password_hash = hash_password_pbkdf2 kdf pw salt ∧
    pyLen pw = 16 ∧
    pw.data.any Char.isLower = true ∧
    pw.data.any Char.isUpper = true ∧
    pw.data.any Char.isDigit = true ∧
    pw.data.any (fun ch => genSymbols.contains ch) = true := by
  unfold initializeStore at h
  rcases hg : generateSecurePassword 16 rounds with _ | pw'
  · rw [hg] at h
    cases h
  · rw [hg] at h
    simp only [Option.map_some'] at h
    cases h
    obtain ⟨hlen, hok⟩ := generateSecurePassword_spec rounds 16 pw hg
    unfold passwordOk at hok
    simp only [Bool.and_eq_true] at hok
    obtain ⟨⟨⟨hlo, hup⟩, hdig⟩, hsym⟩ := hok
    exact ⟨rfl, rfl, hlen, hlo, hup, hdig, hsym⟩

/-- C9 witness: a concrete random stream whose first round already contains
all four character classes produces a disclosed 16-character password and a
record requiring a password change. -/
theorem c9_witness :
    (initializeStore kdfLen 0 salt0
        [fun j => if j = 0 then 'a' else if j = 1 then 'B' else if j = 2 then '3' else '!']
        none).isSome = true ∧
    ((createInitialCredentials kdfLen 0 salt0 "aB3!!!!!!!!!!!!!").require_password_change = true ∧
      pyLen "aB3!!!!!!!!!!!!!" = 16) := by
  have h := c9_initialize_fresh_record kdfLen 0 salt0
    [fun j => if j = 0 then 'a' else if j = 1 then 'B' else if j = 2 then '3' else '!']
    (createInitialCredentials kdfLen 0 salt0 "aB3!!!!!!!!!!!!!") "aB3!!!!!!!!!!!!!" rfl
  exact ⟨rfl, h.1, h.2.2.1⟩

/-- C10: any successful `authenticate` call arms the session inside the same
call: both `session_start` and `last_activity` are set to the call's time,
and `is_session_valid` at that time is already true with no separate
arm/touch call. -/
theorem c10_success_arms_session (kdf : String → List Nat → Nat → Nat → List Nat)
    (now : Int) (idf pw : String) (st : AdminState) (res : Bool × String)
    (st2 : AdminState)
    (h : authenticate kdf now idf pw st = .ok (res, st2)) (hres : res.1 = true) :
    st2.session_start = some now ∧ st2.last_activity = some now ∧
      is_session_valid now st2 = true := by
  obtain ⟨c, ss, la⟩ := st
  rcases auth_cases kdf now idf pw c ss la with
    ⟨t, hl, hlt, hEq⟩ |
    ⟨c1, hc, ⟨hid, hEq⟩ | ⟨hid, ⟨e, hv, hEq⟩ | ⟨hv, hEq⟩ | ⟨hv, hEq⟩⟩⟩ <;>
    rw [hEq] at h
  · cases h
    exact Bool.noConfusion hres
  · cases h
    exact Bool.noConfusion hres
  · cases h
  · cases h
    exact Bool.noConfusion hres
  · cases h
    exact ⟨rfl, rfl, session_valid_fresh now _⟩

/-- C10 witness: the concrete successful login at time 7 arms the session
and `is_session_valid` holds immediately. -/
theorem c10_witness :
    (⟨{ resetFailedAttempts cTest with last_login := some 7 }, some 7, some 7⟩ :
        AdminState).session_start = some 7 ∧
    (⟨{ resetFailedAttempts cTest with last_login := some 7 }, some 7, some 7⟩ :
        AdminState).last_activity = some 7 ∧
    is_session_valid 7
      (⟨{ resetFailedAttempts cTest with last_login := some 7 }, some 7, some 7⟩ :
        AdminState) = true :=
  c10_success_arms_session kdfLen 7 "admin" "Secret" ⟨cTest, none, none⟩
    (true, "Success") _ rfl rfl

/-- Unrolling one step of `failChain`. -/
theorem failChain_snoc (ts : List Int) (t : Int) (c : Credentials) :
    failChain (ts ++ [t]) c = recordFailedAttempt t (failChain ts c) := by
  unfold failChain
  rw [List.foldl_append]
  rfl

/-- C7: `change_password` with a wrong old password returns `False` without
raising and leaves the record as it was; with the correct old password, each
strength violation — length below 12, or no uppercase, lowercase, digit or
special character (in the source's check order) — raises a `ValueError`
carrying that violation's message, the record again untouched (it is carried
unchanged in the error). -/
theorem c7_change_password_validation (kdf : String → List Nat → Nat → Nat → List Nat)
    (now : Int) (salt : List Nat) (oldPw newPw : String) (c : Credentials) :
    (verify_password_pbkdf2 kdf oldPw c.password_hash = .ok false →
       change_password kdf now salt oldPw newPw c = .ok (false, c)) ∧
    (verify_password_pbkdf2 kdf oldPw c.password_hash = .ok true →
      ((pyLen newPw < 12 →
          change_password kdf now salt oldPw newPw c =
            .error ("Password must be at least 12 characters long", c)) ∧
       (¬ pyLen newPw < 12 → newPw.data.any Char.isUpper = false →
          change_password kdf now salt oldPw newPw c =
            .error ("Password must contain uppercase letters", c)) ∧
       (¬ pyLen newPw < 12 → newPw.data.any Char.isUpper = true →
          newPw.data.any Char.isLower = false →
          change_password kdf now salt oldPw newPw c =
            .error ("Password must contain lowercase letters", c)) ∧
       (¬ pyLen newPw < 12 → newPw.data.any Char.isUpper = true →
          newPw.data.any Char.isLower = true → newPw.data.any Char.isDigit = false →
          change_password kdf now salt oldPw newPw c =
            .error ("Password must contain numbers", c)) ∧
       (¬ pyLen newPw < 12 → newPw.data.any Char.isUpper = true →
          newPw.data.any Char.isLower = true → newPw.data.any Char.isDigit = true →
          newPw.data.any (fun ch => specialChars.contains ch) = false →
          change_password kdf now salt oldPw newPw c =
            .error ("Password must contain special characters", c)))) := by
  constructor
  · intro hv
    unfold change_password
    rw [hv]
  · intro hv
    refine ⟨?_, ?_, ?_, ?_, ?_⟩
    · intro h12
      unfold change_password
      rw [hv]
      dsimp only
      rw [if_pos h12]
    · intro h12 hup
      unfold change_password
      rw [hv]
      dsimp only
      rw [if_neg h12, hup, if_pos (by decide)]
    · intro h12 hup hlo
      unfold change_password
      rw [hv]
      dsimp only
      rw [if_neg h12, hup, if_neg (by decide), hlo, if_pos (by decide)]
    · intro h12 hup hlo hdig
      unfold change_password
      rw [hv]
      dsimp only
      rw [if_neg h12, hup, if_neg (by decide), hlo, if_neg (by decide), hdig,
        if_pos (by decide)]
    · intro h12 hup hlo hdig hsp
      unfold change_password
      rw [hv]
      dsimp only
      rw [if_neg h12, hup, if_neg (by decide), hlo, if_neg (by decide), hdig,
        if_neg (by decide), hsp, if_pos (by decide)]

/-- C7 witness: with the stored hash of "Secret", a wrong old password
returns `False` with the record intact, and a too-short new password raises
the length message with the record intact. -/
theorem c7_witness :
    change_password kdfLen 3 salt0 "nope" "Whatever1!xx" cTest = .ok (false, cTest) ∧
    change_password kdfLen 3 salt0 "Secret" "short" cTest =
      .error ("Password must be at least 12 characters long", cTest) :=
  ⟨(c7_change_password_validation kdfLen 3 salt0 "nope" "Whatever1!xx" cTest).1 rfl,
   ((c7_change_password_validation kdfLen 3 salt0 "Secret" "short" cTest).2 rfl).1
     (by decide)⟩

/-- C1: from an unlocked record with a zero counter, five consecutive calls
with the correct identifier but a wrong password each return the generic
invalid-credentials failure and step the counter 1, 2, 3, 4, 5; the first
four leave `locked_until` absent, the fifth sets it to its call time plus 15
minutes, and a sixth call inside that window — with the correct identifier
and password — fails with the distinct account-locked message and changes
nothing. -/
theorem c1_five_failures_lock (kdf : String → List Nat → Nat → Nat → List Nat)
    (c : Credentials) (wrong correct : String) (t1 t2 t3 t4 t5 t6 : Int)
    (hl : c.locked_until = none) (hf : c.failed_attempts = 0) (hu : c.username = "admin")
    (hw : verify_password_pbkdf2 kdf wrong c.password_hash = .ok false)
    (hc : verify_password_pbkdf2 kdf correct c.password_hash = .ok true)
    (ht : t6 < t5 + LOGIN_ATTEMPT_WINDOW_MINUTES * 60) :
    authenticate kdf t1 "admin" wrong ⟨c, none, none⟩ =
      .ok ((false, "Invalid credentials"), ⟨failChain [t1] c, none, none⟩) ∧
    authenticate kdf t2 "admin" wrong ⟨failChain [t1] c, none, none⟩ =
      .ok ((false, "Invalid credentials"), ⟨failChain [t1, t2] c, none, none⟩) ∧
    authenticate kdf t3 "admin" wrong ⟨failChain [t1, t2] c, none, none⟩ =
      .ok ((false, "Invalid credentials"), ⟨failChain [t1, t2, t3] c, none, none⟩) ∧
    authenticate kdf t4 "admin" wrong ⟨failChain [t1, t2, t3] c, none, none⟩ =
      .ok ((false, "Invalid credentials"), ⟨failChain [t1, t2, t3, t4] c, none, none⟩) ∧
    authenticate kdf t5 "admin" wrong ⟨failChain [t1, t2, t3, t4] c, none, none⟩ =
      .ok ((false, "Invalid credentials"), ⟨failChain [t1, t2, t3, t4, t5] c, none, none⟩) ∧
    (failChain [t1] c).failed_attempts = 1 ∧
    (failChain [t1, t2] c).failed_attempts = 2 ∧
    (failChain [t1, t2, t3] c).failed_attempts = 3 ∧
    (failChain [t1, t2, t3, t4] c).failed_attempts = 4 ∧
    (failChain [t1, t2, t3, t4, t5] c).failed_attempts = 5 ∧
    (failChain [t1, t2, t3, t4] c).locked_until = none ∧
    (failChain [t1, t2, t3, t4, t5] c).locked_until =
      some (t5 + LOGIN_ATTEMPT_WINDOW_MINUTES * 60) ∧
    authenticate kdf t6 "admin" correct ⟨failChain [t1, t2, t3, t4, t5] c, none, none⟩ =
      .ok ((false, "Account is temporarily locked due to too many failed attempts"),
        ⟨failChain [t1, t2, t3, t4, t5] c, none, none⟩) := by
  have e1 : failChain [t1] c = recordFailedAttempt t1 c := rfl
  have e2 : failChain [t1, t2] c = recordFailedAttempt t2 (failChain [t1] c) := by
    rw [show [t1, t2] = [t1] ++ [t2] from rfl, failChain_snoc]
  have e3 : failChain [t1, t2, t3] c = recordFailedAttempt t3 (failChain [t1, t2] c) := by
    rw [show [t1, t2, t3] = [t1, t2] ++ [t3] from rfl, failChain_snoc]
  have e4 : failChain [t1, t2, t3, t4] c =
      recordFailedAttempt t4 (failChain [t1, t2, t3] c) := by
    rw [show [t1, t2, t3, t4] = [t1, t2, t3] ++ [t4] from rfl, failChain_snoc]
  have e5 : failChain [t1, t2, t3, t4, t5] c =
      recordFailedAttempt t5 (failChain [t1, t2, t3, t4] c) := by
    rw [show [t1, t2, t3, t4, t5] = [t1, t2, t3, t4] ++ [t5] from rfl, failChain_snoc]
  have hf1 : (failChain [t1] c).failed_attempts = 1 := by
    rw [e1, rfa_failed, hf]
  have hf2 : (failChain [t1, t2] c).failed_attempts = 2 := by
    rw [e2, rfa_failed, hf1]
  have hf3 : (failChain [t1, t2, t3] c).failed_attempts = 3 := by
    rw [e3, rfa_failed, hf2]
  have hf4 : (failChain [t1, t2, t3, t4] c).failed_attempts = 4 := by
    rw [e4, rfa_failed, hf3]
  have hf5 : (failChain [t1, t2, t3, t4, t5] c).failed_attempts = 5 := by
    rw [e5, rfa_failed, hf4]
  have hl1 : (failChain [t1] c).locked_until = none := by
    rw [e1, rfa_locked_of_lt t1 c (by rw [hf]; decide), hl]
  have hl2 : (failChain [t1, t2] c).locked_until = none := by
    rw [e2, rfa_locked_of_lt t2 _ (by rw [hf1]; decide), hl1]
  have hl3 : (failChain [t1, t2, t3] c).locked_until = none := by
    rw [e3, rfa_locked_of_lt t3 _ (by rw [hf2]; decide), hl2]
  have hl4 : (failChain [t1, t2, t3, t4] c).locked_until = none := by
    rw [e4, rfa_locked_of_lt t4 _ (by rw [hf3]; decide), hl3]
  have hl5 : (failChain [t1, t2, t3, t4, t5] c).locked_until =
      some (t5 + LOGIN_ATTEMPT_WINDOW_MINUTES * 60) := by
    rw [e5, rfa_locked_of_ge t5 _ (by rw [hf4]; decide)]
  have hu1 : (failChain [t1] c).username = "admin" := by rw [e1, rfa_username, hu]
  have hu2 : (failChain [t1, t2] c).username = "admin" := by rw [e2, rfa_username, hu1]
  have hu3 : (failChain [t1, t2, t3] c).username = "admin" := by rw [e3, rfa_username, hu2]
  have hu4 : (failChain [t1, t2, t3, t4] c).username = "admin" := by
    rw [e4, rfa_username, hu3]
  have hh1 : (failChain [t1] c).password_hash = c.password_hash := by
    rw [e1, rfa_password_hash]
  have hh2 : (failChain [t1, t2] c).password_hash = c.password_hash := by
    rw [e2, rfa_password_hash, hh1]
  have hh3 : (failChain [t1, t2, t3] c).password_hash = c.password_hash := by
    rw [e3, rfa_password_hash, hh2]
  have hh4 : (failChain [t1, t2, t3, t4] c).password_hash = c.password_hash := by
    rw [e4, rfa_password_hash, hh3]
  refine ⟨?_, ?_, ?_, ?_, ?_, hf1, hf2, hf3, hf4, hf5, hl4, hl5, ?_⟩
  · rw [e1]
    exact auth_badpw_eq kdf t1 "admin" wrong ⟨c, none, none⟩ hl
      (identifierMatches_of_admin c hu) hw
  · rw [e2]
    exact auth_badpw_eq kdf t2 "admin" wrong ⟨failChain [t1] c, none, none⟩ hl1
      (identifierMatches_of_admin _ hu1) (by rw [hh1]; exact hw)
  · rw [e3]
    exact auth_badpw_eq kdf t3 "admin" wrong ⟨failChain [t1, t2] c, none, none⟩ hl2
      (identifierMatches_of_admin _ hu2) (by rw [hh2]; exact hw)
  · rw [e4]
    exact auth_badpw_eq kdf t4 "admin" wrong ⟨failChain [t1, t2, t3] c, none, none⟩ hl3
      (identifierMatches_of_admin _ hu3) (by rw [hh3]; exact hw)
  · rw [e5]
    exact auth_badpw_eq kdf t5 "admin" wrong ⟨failChain [t1, t2, t3, t4] c, none, none⟩ hl4
      (identifierMatches_of_admin _ hu4) (by rw [hh4]; exact hw)
  · exact auth_locked_eq kdf t6 "admin" correct
      ⟨failChain [t1, t2, t3, t4, t5] c, none, none⟩
      (t5 + LOGIN_ATTEMPT_WINDOW_MINUTES * 60) hl5 ht

set_option maxHeartbeats 2000000 in
/-- C1 witness: running the scenario concretely at times 1..6 on the test
record locks at time 905 = 5 + 15·60 and the sixth call with the correct
password is rejected as locked. -/
theorem c1_witness :
    (failChain [1, 2, 3, 4, 5] cTest).locked_until =
      some (5 + LOGIN_ATTEMPT_WINDOW_MINUTES * 60) ∧
    authenticate kdfLen 6 "admin" "Secret" ⟨failChain [1, 2, 3, 4, 5] cTest, none, none⟩ =
      .ok ((false, "Account is temporarily locked due to too many failed attempts"),
        ⟨failChain [1, 2, 3, 4, 5] cTest, none, none⟩) := by
  obtain ⟨a1, a2, a3, a4, a5, f1, f2, f3, f4, f5, l4, l5, a6⟩ :=
    c1_five_failures_lock kdfLen cTest "bad" "Secret" 1 2 3 4 5 6 rfl rfl rfl rfl rfl
      (by decide)
  exact ⟨l5, a6⟩

/-- C8: in every credential state reachable from a fresh install by
`authenticate` / `change_password` calls: a set `locked_until` certifies the
counter has reached the threshold 5; a successful `authenticate` resets the
counter to 0; an observed reset of a nonzero counter can only come from a
successful authentication or from the auto-unlock of an elapsed lock (also
when the call then raises); and `change_password` never touches the counter
or the lock in any of its outcomes. -/
theorem c8_reset_and_lock_invariant (kdf : String → List Nat → Nat → Nat → List Nat)
    (c : Credentials) (h : Reachable kdf c) :
    (∀ t, c.locked_until = some t → MAX_LOGIN_ATTEMPTS ≤ c.failed_attempts) ∧
    (∀ now idf pw ss la res st2,
       authenticate kdf now idf pw ⟨c, ss, la⟩ = .ok (res, st2) →
       ((res.1 = true → st2.credentials.failed_attempts = 0) ∧
        (st2.credentials.failed_attempts = 0 →
           c.failed_attempts = 0 ∨ res.1 = true ∨
             ∃ t, c.locked_until = some t ∧ t ≤ now))) ∧
    (∀ now idf pw ss la e st2,
       authenticate kdf now idf pw ⟨c, ss, la⟩ = .error (e, st2) →
       (st2.credentials.failed_attempts = 0 →
          c.failed_attempts = 0 ∨ ∃ t, c.locked_until = some t ∧ t ≤ now)) ∧
    (∀ now salt oldPw newPw b c2,
       change_password kdf now salt oldPw newPw c = .ok (b, c2) →
       c2.failed_attempts = c.failed_attempts ∧ c2.locked_until = c.locked_until) ∧
    (∀ now salt oldPw newPw e c2,
       change_password kdf now salt oldPw newPw c = .error (e, c2) → c2 = c) := by
  have hinv := reachable_lockInv kdf c h
  refine ⟨?_, ?_, ?_, ?_, ?_⟩
  · intro t ht
    exact le_of_eq (hinv.2 t ht).symm
  · intro now idf pw ss la res st2 hA
    rcases auth_cases kdf now idf pw c ss la with
      ⟨t, hl, hlt, hEq⟩ |
      ⟨c1, hc, ⟨hid, hEq⟩ | ⟨hid, ⟨e, hv, hEq⟩ | ⟨hv, hEq⟩ | ⟨hv, hEq⟩⟩⟩ <;>
      rw [hEq] at hA
    · cases hA
      exact ⟨fun hres => Bool.noConfusion hres, fun hz => .inl hz⟩
    · cases hA
      refine ⟨fun hres => Bool.noConfusion hres, fun hz => ?_⟩
      rcases hc with ⟨hn, rfl⟩ | ⟨t, hlt, hle, rfl⟩
      · rw [rfa_failed] at hz
        exact absurd hz (Nat.succ_ne_zero _)
      · exact .inr (.inr ⟨t, hlt, hle⟩)
    · cases hA
    · cases hA
      refine ⟨fun hres => Bool.noConfusion hres, fun hz => ?_⟩
      rcases hc with ⟨hn, rfl⟩ | ⟨t, hlt, hle, rfl⟩
      · rw [rfa_failed] at hz
        exact absurd hz (Nat.succ_ne_zero _)
      · exact .inr (.inr ⟨t, hlt, hle⟩)
    · cases hA
      exact ⟨fun _ => rfl, fun _ => .inr (.inl rfl)⟩
  · intro now idf pw ss la e st2 hA
    rcases auth_cases kdf now idf pw c ss la with
      ⟨t, hl, hlt, hEq⟩ |
      ⟨c1, hc, ⟨hid, hEq⟩ | ⟨hid, ⟨e2, hv, hEq⟩ | ⟨hv, hEq⟩ | ⟨hv, hEq⟩⟩⟩ <;>
      rw [hEq] at hA
    · cases hA
    · cases hA
    · cases hA
      intro hz
      rcases hc with ⟨hn, rfl⟩ | ⟨t, hlt, hle, rfl⟩
      · exact .inl hz
      · exact .inr ⟨t, hlt, hle⟩
    · cases hA
    · cases hA
  · intro now salt oldPw newPw b c2 hC
    rcases change_password_cases kdf now salt oldPw newPw c with ⟨e, hEq⟩ | hEq | hEq <;>
      rw [hEq] at hC
    · cases hC
    · cases hC
      exact ⟨rfl, rfl⟩
    · cases hC
      exact ⟨rfl, rfl⟩
  · intro now salt oldPw newPw e c2 hC
    rcases change_password_cases kdf now salt oldPw newPw c with ⟨e2, hEq⟩ | hEq | hEq <;>
      rw [hEq] at hC
    · cases hC
      rfl
    · cases hC
    · cases hC

/-- C8 witness: applying the invariant to the concrete reachable fresh
record and its concrete successful login at time 7 shows the counter lands
at 0. -/
theorem c8_witness :
    ({ resetFailedAttempts cTest with last_login := some 7 } :
      Credentials).failed_attempts = 0 :=
  ((c8_reset_and_lock_invariant kdfLen cTest (Reachable.init 0 salt0 "Secret")).2.1
    7 "admin" "Secret" none none (true, "Success")
    ⟨{ resetFailedAttempts cTest with last_login := some 7 }, some 7, some 7⟩
    rfl).1 rfl

/-- C3 counterexample: the claim says a parse error makes `verify` return
false without throwing; but on the tag-bearing stored string
`"pbkdf2_sha256$100000"` — too few `$`-delimited fields — the source's
four-way unpacking raises `ValueError`, so `verify` throws instead of
returning false. -/
theorem c3_counterexample :
    verify_password_pbkdf2 kdfConst "wrong" "pbkdf2_sha256$100000" =
      .error "ValueError: not enough values to unpack" ∧
    verify_password_pbkdf2 kdfConst "wrong" "pbkdf2_sha256$100000" ≠ .ok false := by
  refine ⟨rfl, ?_⟩
  intro h
  have h2 : (Except.error "ValueError: not enough values to unpack" :
      Except String Bool) = .ok false :=
    (rfl : verify_password_pbkdf2 kdfConst "wrong" "pbkdf2_sha256$100000" =
      .error "ValueError: not enough values to unpack").symm.trans h
  exact Except.noConfusion h2

/-- C3 (amended): `verify` returns false, without throwing, whenever the
algorithm tag is unrecognized; but when the tag is recognized and the
remainder is malformed it raises — shown for each parse-error class the
claim lists: wrong field count, non-numeric iteration count, and invalid
base64 material. -/
theorem c3_unknown_tag_false_malformed_raises
    (kdf : String → List Nat → Nat → Nat → List Nat) (p s : String) :
    (strStartsWith s.data "pbkdf2_sha256$".data = false →
       verify_password_pbkdf2 kdf p s = .ok false) ∧
    verify_password_pbkdf2 kdf p "pbkdf2_sha256$100000" =
      .error "ValueError: not enough values to unpack" ∧
    verify_password_pbkdf2 kdf p "pbkdf2_sha256$1x0$AAAA$AAAA" =
      .error "ValueError: invalid literal for int" ∧
    verify_password_pbkdf2 kdf p "pbkdf2_sha256$100000$AAA$AAAA" =
      .error "binascii.Error: invalid base64 salt" := by
  refine ⟨?_, rfl, rfl, rfl⟩
  intro hs
  unfold verify_password_pbkdf2
  rw [if_neg (fun hc => Bool.false_ne_true (hs ▸ hc))]

/-- C3 witness: a stored value with an unrecognized tag (such as a plain
or differently-tagged string) yields `.ok false` rather than an error. -/
theorem c3_witness :
    strStartsWith "plain-md5-hash".data "pbkdf2_sha256$".data = false ∧
    verify_password_pbkdf2 kdfConst "pw" "plain-md5-hash" = .ok false :=
  ⟨rfl, (c3_unknown_tag_false_malformed_raises kdfConst "pw" "plain-md5-hash").1 rfl⟩

/-- C4 counterexample: with the key-derivation primitive abstracted (it is
`hashlib.pbkdf2_hmac`, outside this repository), the claim's second half —
`verify(q, hash(p))` is false for every `q ≠ p` — fails for any derivation
function that collides on `p` and `q`: under the constant byte-valued
`kdfConst`, `verify` accepts `"b"` against the hash of `"a"`.  (No function
from the unbounded password space into 32-byte keys can avoid such
collisions, the real PBKDF2 included.) -/
theorem c4_counterexample :
    ("b" : String) ≠ "a" ∧
    verify_password_pbkdf2 kdfConst "b" (hash_password_pbkdf2 kdfConst "a" salt0) =
      .ok true := by
  constructor
  · decide
  · rfl

/-- The bytes returned by `kdfLen` are genuine byte values. -/
theorem kdfLen_bytes : ∀ p s n l, ByteList (kdfLen p s n l) := by
  intro p s n l b hb
  unfold kdfLen at hb
  rcases List.mem_cons.mp hb with hh | hh
  · subst hh
    exact Nat.mod_lt _ (by omega)
  · rw [List.eq_of_mem_replicate hh]
    omega

/-- C4 (amended): for every byte-valued key-derivation function, every
password `p` and every salt of bytes, `verify(p, hash(p))` is true; and for
`q ≠ p`, `verify(q, hash(p))` is false exactly under the proviso that the
derived key of `q` differs from that of `p` for the stored salt — i.e.
unless the key derivation collides on the pair, which no function into
32-byte keys can rule out for all pairs. -/
theorem c4_hash_verify_roundtrip (kdf : String → List Nat → Nat → Nat → List Nat)
    (hk : ∀ p s n l, ByteList (kdf p s n l)) (p q : String) (salt : List Nat)
    (hs : ByteList salt) :
    verify_password_pbkdf2 kdf p (hash_password_pbkdf2 kdf p salt) = .ok true ∧
    (kdf q salt PBKDF2_ITERATIONS PBKDF2_KEY_LEN ≠
        kdf p salt PBKDF2_ITERATIONS PBKDF2_KEY_LEN →
      verify_password_pbkdf2 kdf q (hash_password_pbkdf2 kdf p salt) = .ok false) := by
  constructor
  · rw [verify_hash_password kdf hk p p salt hs]
    exact congrArg Except.ok (decide_eq_true rfl)
  · intro hne
    rw [verify_hash_password kdf hk p q salt hs]
    exact congrArg Except.ok (decide_eq_false (fun hcol => hne hcol.symm))

/-- C4 witness: under the collision-free-on-these-inputs `kdfLen`,
round-tripping "a" verifies and the different password "bb" is rejected. -/
theorem c4_witness :
    verify_password_pbkdf2 kdfLen "a" (hash_password_pbkdf2 kdfLen "a" salt0) = .ok true ∧
    verify_password_pbkdf2 kdfLen "bb" (hash_password_pbkdf2 kdfLen "a" salt0) =
      .ok false := by
  have h := c4_hash_verify_roundtrip kdfLen kdfLen_bytes "a" "bb" salt0 (by decide)
  exact ⟨h.1, h.2 (by decide)⟩

end MedAuth
